import Mathlib

/-!
Shallow embedding of the thoughts-store state-synchronization layer
(`src/stores/thoughtsStore.js`) of the happy-thoughts client.

Each store action is embedded as a pure function from the current store
state, the action's arguments, and an explicit network outcome (the value
the awaited request resolves or rejects with) to the resulting states.
Because the actions are `async` and the claim set speaks about the state
at the request boundary, each network-performing action also returns the
store state as it stands when the request is issued (`preRequest`), the
request that is issued, and any callback invocation or raised error.

The list-splicing and error-classification utilities live in
`src/utils/thoughtUtils.js` / `src/utils/authUtils.js`, which are not part
of the provided sources; they are modelled from the spec (section 6,
"Collaborator contracts") and carry doc comments saying so.
-/

namespace ThoughtsStore

/-- A fully normalized thought entity, as stored in the feed list.
Field names follow the records used by the store (`_id`, `message`,
`createdAt`, `hearts`, `likesCount`, `isLikedByUser`, `owner`,
`isOptimistic`). -/
structure Thought where
  _id : String
  message : String
  createdAt : String
  hearts : Nat
  likesCount : Nat
  isLikedByUser : Bool
  owner : String
  isOptimistic : Bool
deriving Repr, DecidableEq

/-- The store state fields declared at the top of `create((set, get) => ...)`. -/
structure StoreState where
  thoughts : List Thought
  loading : Bool
  error : String
  currentPage : Nat
  totalPages : Nat
  totalThoughts : Nat
  hasMore : Bool
  viewMode : String
  thoughtFilter : String
deriving Repr, DecidableEq

/-- The initial state of the store: `thoughts: [], loading: false, error: '',
currentPage: 1, totalPages: 1, totalThoughts: 0, hasMore: true,
viewMode: 'pagination', thoughtFilter: 'all'`. -/
def initialState : StoreState :=
  { thoughts := []
    loading := false
    error := ""
    currentPage := 1
    totalPages := 1
    totalThoughts := 0
    hasMore := true
    viewMode := "pagination"
    thoughtFilter := "all" }

/-- `const PAGE_SIZE = 10;` -/
def PAGE_SIZE : Nat := 10

/-- Modelled from the spec: the API base URL imported from
`src/config/api.js`, which is not among the provided sources. Only its
role as an opaque prefix of every endpoint matters here. -/
def API_URL : String := "API_URL"

/-- Modelled from the spec: `normalize(record) -> Thought`
(`processThought` in `src/utils/thoughtUtils.js`, not among the provided
sources) normalizes a raw API record into a display-ready entity. Raw
records are modelled as already-normalized `Thought` values, so
normalization is the identity; in particular it preserves `_id`. -/
def processThought (record : Thought) : Thought := record

/-- Modelled from the spec: `buildOptimistic(message) -> Thought`
(`createOptimisticThought` in `src/utils/thoughtUtils.js`, not among the
provided sources) builds a placeholder with a client-generated temporary
id and `isOptimistic = true`. The generated temporary id is passed in
explicitly as `tempId`. -/
def createOptimisticThought (message tempId : String) : Thought :=
  { _id := tempId
    message := message
    createdAt := ""
    hearts := 0
    likesCount := 0
    isLikedByUser := false
    owner := ""
    isOptimistic := true }

/-- Modelled from the spec: `buildOptimisticLike(thought) -> Thought`
(`createOptimisticLikeUpdate` in `src/utils/thoughtUtils.js`, not among
the provided sources) flips the viewer's like flag and adjusts the
aggregate count accordingly, keeping the id. -/
def createOptimisticLikeUpdate (t : Thought) : Thought :=
  if t.isLikedByUser then
    { t with isLikedByUser := false, likesCount := t.likesCount - 1 }
  else
    { t with isLikedByUser := true, likesCount := t.likesCount + 1 }

/-- Modelled from the spec: the `replaceById` list-splice helper
(`createReplaceUpdater(id, newThought)` in `src/utils/thoughtUtils.js`,
not among the provided sources): replace every entry whose `_id` matches
by the given thought, leave the rest untouched. -/
def createReplaceUpdater (tid : String) (newThought : Thought)
    (l : List Thought) : List Thought :=
  l.map (fun t => if t._id == tid then newThought else t)

/-- Modelled from the spec: the `removeById` list-splice helper
(`createRemoveUpdater(id)` in `src/utils/thoughtUtils.js`, not among the
provided sources): drop every entry whose `_id` matches. -/
def createRemoveUpdater (tid : String) (l : List Thought) : List Thought :=
  l.filter (fun t => t._id != tid)

/-- Modelled from the spec: `createOptimisticUpdater(id, updater)` in
`src/utils/thoughtUtils.js` (not among the provided sources) applies an
in-place update to the entry with the given id. The store only ever calls
it with a constant updater (`() => someThought`), so the updater is
modelled as the thought it returns. -/
def createOptimisticUpdater (tid : String) (newThought : Thought)
    (l : List Thought) : List Thought :=
  l.map (fun t => if t._id == tid then newThought else t)

/-- Modelled from the spec: the `reinsertAt` helper (`reinsertThought` in
`src/utils/thoughtUtils.js`, not among the provided sources) re-inserts a
previously removed entry at its original position in the newest-first
order; modelled as insertion by `createdAt`, newest first. -/
def reinsertThought (l : List Thought) (t : Thought) : List Thought :=
  match l with
  | [] => [t]
  | x :: xs =>
    if t.createdAt > x.createdAt then t :: x :: xs
    else x :: reinsertThought xs t

/-- Modelled from the spec: `extractErrorMessage(payload, fallback)` in
`src/utils/thoughtUtils.js` (not among the provided sources) extracts a
human-readable message from an error payload, falling back when none is
present. The extractable message of a payload is modelled as an
`Option String`. -/
def extractErrorMessage (payload : Option String) (fallback : String) : String :=
  match payload with
  | some m => if m == "" then fallback else m
  | none => fallback

/-- Modelled from the spec: `classifyError(err, genericFallback, authFallback)`
(`handleApiError` in `src/utils/thoughtUtils.js`, not among the provided
sources) maps a thrown error to the auth-specific fallback when it is an
"Authentication required" failure and to the generic fallback otherwise.
The thrown error is modelled by the flag `isAuthRequired`. -/
def handleApiError (isAuthRequired : Bool) (genericFallback authFallback : String) :
    String :=
  if isAuthRequired then authFallback else genericFallback

/-- JavaScript `a || b` on an optionally-present number (`undefined` and
`0` are falsy). -/
def jsOrNat (o : Option Nat) (fallback : Nat) : Nat :=
  match o with
  | some n => if n == 0 then fallback else n
  | none => fallback

/-- `Math.ceil(total / PAGE_SIZE)` on natural numbers. -/
def ceilDiv (a b : Nat) : Nat := (a + b - 1) / b

/-- The optional `pagination` object of a structured fetch response:
`{currentPage, totalPages, hasNextPage}`, each field possibly absent. -/
structure PaginationMeta where
  currentPage : Option Nat
  totalPages : Option Nat
  hasNextPage : Option Bool
deriving Repr, DecidableEq

/-- The parsed JSON body of a successful fetch: either a bare array of
records (`pagination := none`, `total := none`) or
`{thoughts: [...], pagination: ..., total: ...}`. `thoughtsArray` is the
resolved `data.thoughts || data` array. -/
structure FetchData where
  thoughtsArray : List Thought
  pagination : Option PaginationMeta
  total : Option Nat
deriving Repr, DecidableEq

/-- Outcome of the awaited request in `fetchThoughts`: a response that is
ok and parses (`success`), a non-OK response (the code throws
`'Failed to fetch thoughts'`), or a transport error thrown by the request
itself. -/
inductive FetchNet where
  | success (data : FetchData)
  | notOk
  | netError
deriving Repr, DecidableEq

/-- The request a fetch issues: which endpoint is targeted and whether the
`authenticatedFetch` helper (rather than plain `fetch`) performs it. -/
structure FetchRequest where
  endpoint : String
  usesAuthenticatedFetch : Bool
deriving Repr, DecidableEq

/-- The endpoint and request function selected by `fetchThoughts` from the
current `thoughtFilter`:
`thoughtFilter === 'my' ? API_URL/users/me/thoughts... : API_URL/thoughts...`
and `thoughtFilter === 'my' ? authenticatedFetch : fetch`. -/
def fetchRequestOf (filter : String) (page : Nat) : FetchRequest :=
  { endpoint :=
      if filter == "my" then
        API_URL ++ "/users/me/thoughts?page=" ++ toString page ++
          "&limit=" ++ toString PAGE_SIZE
      else
        API_URL ++ "/thoughts?page=" ++ toString page ++
          "&limit=" ++ toString PAGE_SIZE
    usesAuthenticatedFetch := filter == "my" }

/-- Result of running `fetchThoughts`: the state at the moment the request
is awaited, the request issued, and the state after the action completes. -/
structure FetchResult where
  preRequest : StoreState
  request : FetchRequest
  final : StoreState
deriving Repr, DecidableEq

/-- `fetchThoughts(page = 1, append = false)`. Sets
`{loading: true, error: ''}`, selects endpoint and request function from
`thoughtFilter`, awaits the request; on success normalizes the records,
derives pagination fields (server metadata preferred, falling back to
`page`, `Math.ceil(total / PAGE_SIZE)` and
`processedThoughts.length === PAGE_SIZE`), and replaces or appends
`thoughts`; on any caught error sets the fixed message; `finally` clears
`loading`. -/
def fetchThoughts (s : StoreState) (page : Nat) (append : Bool)
    (net : FetchNet) : FetchResult :=
  let s1 := { s with loading := true, error := "" }
  let request := fetchRequestOf s1.thoughtFilter page
  match net with
  | .success data =>
    let processedThoughts := data.thoughtsArray.map processThought
    let total := jsOrNat data.total data.thoughtsArray.length
    let currentPage := jsOrNat (data.pagination.bind PaginationMeta.currentPage) page
    let totalPages := jsOrNat (data.pagination.bind PaginationMeta.totalPages)
      (ceilDiv total PAGE_SIZE)
    let hasMore :=
      match data.pagination.bind PaginationMeta.hasNextPage with
      | some b => b
      | none => processedThoughts.length == PAGE_SIZE
    let s2 :=
      { s1 with
        thoughts := if append then s1.thoughts ++ processedThoughts
                    else processedThoughts
        currentPage := currentPage
        totalPages := totalPages
        totalThoughts := total
        hasMore := hasMore }
    { preRequest := s1, request := request, final := { s2 with loading := false } }
  | .notOk =>
    let s2 := { s1 with error := "Could not load happy thoughts. Please try again later." }
    { preRequest := s1, request := request, final := { s2 with loading := false } }
  | .netError =>
    let s2 := { s1 with error := "Could not load happy thoughts. Please try again later." }
    { preRequest := s1, request := request, final := { s2 with loading := false } }

/-- Result of `setThoughtFilter`: the state right after the synchronous
`set({thoughtFilter, currentPage: 1, thoughts: []})`, and the fetch it
then triggers. -/
structure FilterResult where
  afterSet : StoreState
  fetch : FetchResult
deriving Repr, DecidableEq

/-- `setThoughtFilter(filter)`: sets
`{thoughtFilter: filter, currentPage: 1, thoughts: []}` and then calls
`get().fetchThoughts(1)` on the updated state. -/
def setThoughtFilter (s : StoreState) (filter : String) (net : FetchNet) :
    FilterResult :=
  let s1 := { s with thoughtFilter := filter, currentPage := 1, thoughts := [] }
  { afterSet := s1, fetch := fetchThoughts s1 1 false net }

/-- A response as seen inside `addThought`'s `try` block: `response.ok`,
the parsed body `data` (its record fields, modelled as a `Thought`, are
meaningful only when present), the truthiness of `data.message` and
`data._id`, and the extractable error message of the payload. -/
structure AddResponse where
  ok : Bool
  data : Thought
  dataHasMessage : Bool
  dataHasId : Bool
  errPayload : Option String
deriving Repr, DecidableEq

/-- Outcome of the awaited request in `addThought`: either a response
whose body parsed, or a thrown transport error (with
`isAuthRequired = true` when `error.message === 'Authentication required'`). -/
inductive AddNet where
  | response (r : AddResponse)
  | throwErr (isAuthRequired : Bool)
deriving Repr, DecidableEq

/-- The success condition of `addThought`'s reconciliation branch:
`response.ok && data.message && data._id`. -/
def addRequestSucceeded : AddNet → Bool
  | .response r => r.ok && r.dataHasMessage && r.dataHasId
  | .throwErr _ => false

/-- Result of running `addThought`: the state at the moment the request is
awaited, the final state, and the message delivered to the `onError`
callback (`none` when the callback is not invoked). -/
structure AddResult where
  preRequest : StoreState
  final : StoreState
  callback : Option String
deriving Repr, DecidableEq

/-- `addThought(message, onError)`. Sets `{error: '', loading: true}`,
prepends an optimistic placeholder, awaits the POST; on
`response.ok && data.message && data._id` replaces the placeholder with
the normalized server record; otherwise removes the placeholder and
routes `extractErrorMessage(data, 'Invalid input')` to `onError` when
provided; on a thrown error removes the placeholder and routes the
classified message to `onError` only for an authentication failure with a
callback, else to the shared `error` field; `finally` clears `loading`.
Whether an `onError` callback was supplied is the flag `hasOnError`; the
client-generated temporary id of the placeholder is `tempId`. -/
def addThought (s : StoreState) (message : String) (tempId : String)
    (hasOnError : Bool) (net : AddNet) : AddResult :=
  let s1 := { s with error := "", loading := true }
  let optimisticThought := createOptimisticThought message tempId
  let s2 := { s1 with thoughts := optimisticThought :: s1.thoughts }
  match net with
  | .response r =>
    if r.ok && r.dataHasMessage && r.dataHasId then
      let processedThought := processThought r.data
      let s3 := { s2 with
        thoughts := createReplaceUpdater optimisticThought._id processedThought s2.thoughts }
      { preRequest := s2, final := { s3 with loading := false }, callback := none }
    else
      let s3 := { s2 with
        thoughts := createRemoveUpdater optimisticThought._id s2.thoughts }
      let errorMessage := extractErrorMessage r.errPayload "Invalid input"
      { preRequest := s2
        final := { s3 with loading := false }
        callback := if hasOnError then some errorMessage else none }
  | .throwErr isAuthRequired =>
    let s3 := { s2 with
      thoughts := createRemoveUpdater optimisticThought._id s2.thoughts }
    let errorMessage := handleApiError isAuthRequired
      "Could not post your thought. Please try again."
      "Please log in to post a thought"
    if isAuthRequired && hasOnError then
      { preRequest := s2, final := { s3 with loading := false }, callback := some errorMessage }
    else
      { preRequest := s2
        final := { s3 with loading := false, error := errorMessage }
        callback := none }

/-- Outcome of the awaited request in `handleLike`: a response (when
`response.ok` the parsed updated thought matters; a non-OK response makes
the code throw `'Failed to update like status'`), or a thrown transport
error. -/
inductive LikeNet where
  | response (ok : Bool) (updatedThought : Thought)
  | throwErr (isAuthRequired : Bool)
deriving Repr, DecidableEq

/-- Whether the awaited like request ends in the `catch` block: a non-OK
response or a thrown error. -/
def likeRequestFailed : LikeNet → Bool
  | .response ok _ => !ok
  | .throwErr _ => true

/-- Whether the error caught by `handleLike` is an authentication failure
(the locally thrown `'Failed to update like status'` is not). -/
def likeIsAuthError : LikeNet → Bool
  | .response _ _ => false
  | .throwErr isAuthRequired => isAuthRequired

/-- What `handleLike` hands back to its caller: `undefined` without a
request when the thought is absent (`noop`), the confirmed id on success
(`returned`), or a re-raised error on failure (`raised`, carrying whether
the raised error is an authentication failure). -/
inductive LikeOutcome where
  | noop
  | returned (id : String)
  | raised (isAuthRequired : Bool)
deriving Repr, DecidableEq

/-- Result of running `handleLike`: the state at the moment the request is
awaited (`none` when no request is issued), the final state, and the
outcome delivered to the caller. -/
structure LikeResult where
  preRequest : Option StoreState
  final : StoreState
  outcome : LikeOutcome
deriving Repr, DecidableEq

/-- `handleLike(thoughtId)`. Looks the thought up by id (no-op when
absent), applies the optimistic toggled-like view, awaits the POST; on an
OK response replaces by the server record's id and returns that id; in
the `catch` block (non-OK response or thrown error) restores the
pre-toggle snapshot, sets the shared `error` from `handleApiError`, and
re-throws. `loading` is never touched. -/
def handleLike (s : StoreState) (thoughtId : String) (net : LikeNet) :
    LikeResult :=
  match s.thoughts.find? (fun thought => thought._id == thoughtId) with
  | none => { preRequest := none, final := s, outcome := .noop }
  | some currentThought =>
    let optimisticUpdate := createOptimisticLikeUpdate currentThought
    let s1 := { s with
      thoughts := createOptimisticUpdater thoughtId optimisticUpdate s.thoughts }
    match net with
    | .response true updatedThought =>
      let processedThought := processThought updatedThought
      let s2 := { s1 with
        thoughts := createReplaceUpdater updatedThought._id processedThought s1.thoughts }
      { preRequest := some s1, final := s2, outcome := .returned updatedThought._id }
    | .response false _ =>
      let s2 := { s1 with
        thoughts := createOptimisticUpdater thoughtId currentThought s1.thoughts }
      let errorMessage := handleApiError false
        "Could not like the thought. Please try again."
        "Please log in to like thoughts."
      { preRequest := some s1
        final := { s2 with error := errorMessage }
        outcome := .raised false }
    | .throwErr isAuthRequired =>
      let s2 := { s1 with
        thoughts := createOptimisticUpdater thoughtId currentThought s1.thoughts }
      let errorMessage := handleApiError isAuthRequired
        "Could not like the thought. Please try again."
        "Please log in to like thoughts."
      { preRequest := some s1
        final := { s2 with error := errorMessage }
        outcome := .raised isAuthRequired }

/-- Outcome of the awaited request in `updateThought` / `deleteThought`:
a response (on OK the parsed updated record matters; on non-OK the
extractable error payload matters), or a thrown transport error. -/
inductive CrudNet where
  | response (ok : Bool) (updatedThought : Thought) (errPayload : Option String)
  | throwErr (isAuthRequired : Bool)
deriving Repr, DecidableEq

/-- The plain result object (`{success, error?, thought?}`) that
`updateThought` and `deleteThought` return to their caller. -/
structure ActionResult where
  success : Bool
  error : Option String
  thought : Option Thought
deriving Repr, DecidableEq

/-- Result of running `updateThought` or `deleteThought`: the state at the
moment the request is awaited (`none` when the lookup short-circuits),
the final state, and the returned result object. -/
structure CrudResult where
  preRequest : Option StoreState
  final : StoreState
  result : ActionResult
deriving Repr, DecidableEq

/-- `updateThought(thoughtId, message)`. Looks the thought up by id and
returns `{success: false, error: 'Thought not found'}` without a request
when absent; applies the optimistic edit (`isOptimistic: true`), awaits
the PUT; on OK replaces by the server record's id and returns
`{success: true, thought}`; on non-OK or a thrown error restores the
pre-edit snapshot and returns `{success: false, error}` with the
extracted or classified message. Never touches `error` or `loading` in
the shared state. -/
def updateThought (s : StoreState) (thoughtId message : String)
    (net : CrudNet) : CrudResult :=
  match s.thoughts.find? (fun thought => thought._id == thoughtId) with
  | none =>
    { preRequest := none, final := s
      result := { success := false, error := some "Thought not found", thought := none } }
  | some currentThought =>
    let optimisticUpdate := { currentThought with message := message, isOptimistic := true }
    let s1 := { s with
      thoughts := createOptimisticUpdater thoughtId optimisticUpdate s.thoughts }
    match net with
    | .response true updatedThought _ =>
      let processedThought := processThought updatedThought
      let s2 := { s1 with
        thoughts := createReplaceUpdater updatedThought._id processedThought s1.thoughts }
      { preRequest := some s1, final := s2
        result := { success := true, error := none, thought := some processedThought } }
    | .response false _ errPayload =>
      let s2 := { s1 with
        thoughts := createOptimisticUpdater thoughtId currentThought s1.thoughts }
      let errorMessage := extractErrorMessage errPayload "Failed to update thought"
      { preRequest := some s1, final := s2
        result := { success := false, error := some errorMessage, thought := none } }
    | .throwErr isAuthRequired =>
      let s2 := { s1 with
        thoughts := createOptimisticUpdater thoughtId currentThought s1.thoughts }
      let errorMessage := handleApiError isAuthRequired
        "Could not update the thought. Please try again."
        "Please log in to edit thoughts."
      { preRequest := some s1, final := s2
        result := { success := false, error := some errorMessage, thought := none } }

/-- `deleteThought(thoughtId)`. Looks the thought up by id and returns
`{success: false, error: 'Thought not found'}` without a request when
absent; removes the entry optimistically, awaits the DELETE; on OK
returns `{success: true}`; on non-OK or a thrown error re-inserts the
removed entry and returns `{success: false, error}` with the extracted or
classified message. Never touches `error` or `loading` in the shared
state. -/
def deleteThought (s : StoreState) (thoughtId : String) (net : CrudNet) :
    CrudResult :=
  match s.thoughts.find? (fun thought => thought._id == thoughtId) with
  | none =>
    { preRequest := none, final := s
      result := { success := false, error := some "Thought not found", thought := none } }
  | some thoughtToDelete =>
    let s1 := { s with thoughts := createRemoveUpdater thoughtId s.thoughts }
    match net with
    | .response true _ _ =>
      { preRequest := some s1, final := s1
        result := { success := true, error := none, thought := none } }
    | .response false _ errPayload =>
      let s2 := { s1 with thoughts := reinsertThought s1.thoughts thoughtToDelete }
      let errorMessage := extractErrorMessage errPayload "Failed to delete thought"
      { preRequest := some s1, final := s2
        result := { success := false, error := some errorMessage, thought := none } }
    | .throwErr isAuthRequired =>
      let s2 := { s1 with thoughts := reinsertThought s1.thoughts thoughtToDelete }
      let errorMessage := handleApiError isAuthRequired
        "Could not delete the thought. Please try again."
        "Please log in to delete thoughts."
      { preRequest := some s1, final := s2
        result := { success := false, error := some errorMessage, thought := none } }

/-- A concrete sample thought with id `"a"`, used by the concrete
instantiations below. Its like data matches the spec scenario
`{_id:"a", liked:false, likesCount:3}`. -/
def sampleThoughtA : Thought :=
  { _id := "a"
    message := "hello"
    createdAt := "2024-01-02"
    hearts := 3
    likesCount := 3
    isLikedByUser := false
    owner := "u1"
    isOptimistic := false }

/-- A concrete sample thought with id `"b"`, used by the concrete
instantiations below. -/
def sampleThoughtB : Thought :=
  { _id := "b"
    message := "world"
    createdAt := "2024-01-01"
    hearts := 0
    likesCount := 0
    isLikedByUser := true
    owner := "u2"
    isOptimistic := false }

/-- A concrete successful fetch body carrying only `sampleThoughtA` and
no pagination metadata. -/
def sampleFetchDataA : FetchData :=
  { thoughtsArray := [sampleThoughtA], pagination := none, total := none }

/-- A concrete successful fetch body carrying only `sampleThoughtB` and
no pagination metadata. -/
def sampleFetchDataB : FetchData :=
  { thoughtsArray := [sampleThoughtB], pagination := none, total := none }

/-- A concrete server rejection of an add: non-OK, invalid created-record
payload, with an extractable error message. -/
def sampleRejectResponse : AddResponse :=
  { ok := false
    data := sampleThoughtB
    dataHasMessage := false
    dataHasId := false
    errPayload := some "Bad words detected" }

/-! Helper lemmas about the list-splice utilities. -/

/-- Normalization is modelled as the identity, so it maps over any list
without changing it. -/
theorem map_processThought (l : List Thought) : l.map processThought = l := by
  induction l with
  | nil => rfl
  | cons x xs ih => simp [processThought, ih]

/-- Removing an id that is not present leaves the list unchanged. -/
theorem createRemoveUpdater_of_not_mem {tid : String} {l : List Thought}
    (h : tid ∉ l.map Thought._id) : createRemoveUpdater tid l = l := by
  apply List.filter_eq_self.mpr
  intro t ht
  simp only [bne_iff_ne, ne_eq]
  intro heq
  exact h (List.mem_map.mpr ⟨t, ht, heq⟩)

/-- Removing the freshly prepended optimistic placeholder undoes the
prepend on the rest of the removal. -/
theorem createRemoveUpdater_cons_self (tid : String) (t : Thought)
    (ht : t._id = tid) (l : List Thought) :
    createRemoveUpdater tid (t :: l) = createRemoveUpdater tid l := by
  simp [createRemoveUpdater, List.filter_cons, ht]

/-- Replacing at an id that is not present leaves the list unchanged. -/
theorem createOptimisticUpdater_of_not_mem {tid : String} {b : Thought}
    {l : List Thought} (h : tid ∉ l.map Thought._id) :
    createOptimisticUpdater tid b l = l := by
  unfold createOptimisticUpdater
  conv_rhs => rw [← List.map_id l]
  apply List.map_congr_left
  intro t ht
  have : t._id ≠ tid := fun heq => h (List.mem_map.mpr ⟨t, ht, heq⟩)
  simp [this]

/-- Two successive in-place replacements at the same id collapse to the
second one, provided the first replacement keeps the id. -/
theorem createOptimisticUpdater_comp {tid : String} {a b : Thought}
    {l : List Thought} (ha : a._id = tid) :
    createOptimisticUpdater tid b (createOptimisticUpdater tid a l) =
      createOptimisticUpdater tid b l := by
  unfold createOptimisticUpdater
  rw [List.map_map]
  apply List.map_congr_left
  intro t _
  by_cases h : t._id = tid
  · simp [Function.comp, h, ha]
  · simp [Function.comp, h]

/-- Replacing the found entry by itself is the identity when ids are
duplicate-free. -/
theorem createOptimisticUpdater_find_self {tid : String} {cur : Thought}
    {l : List Thought}
    (hfind : l.find? (fun t => t._id == tid) = some cur)
    (hnodup : (l.map Thought._id).Nodup) :
    createOptimisticUpdater tid cur l = l := by
  induction l with
  | nil => simp at hfind
  | cons x xs ih =>
    simp only [List.map_cons, List.nodup_cons] at hnodup
    by_cases hx : x._id = tid
    · rw [List.find?_cons_of_pos _ (by simp [hx])] at hfind
      have hcur : cur = x := by injection hfind with h; exact h.symm
      subst hcur
      have hxs : tid ∉ xs.map Thought._id := hx ▸ hnodup.1
      have tail := createOptimisticUpdater_of_not_mem (b := cur) hxs
      unfold createOptimisticUpdater at tail ⊢
      simp [hx]
      simpa using tail
    · rw [List.find?_cons_of_neg _ (by simp [hx])] at hfind
      have tail := ih hfind hnodup.2
      unfold createOptimisticUpdater at tail ⊢
      simp [hx]
      simpa using tail

/-- The entry `find?` returns satisfies the predicate: its id is the one
looked up. -/
theorem find?_id_eq {tid : String} {cur : Thought} {l : List Thought}
    (hfind : l.find? (fun t => t._id == tid) = some cur) : cur._id = tid := by
  have := List.find?_some hfind
  simpa using this

/-- The optimistic placeholder carries the client-generated temporary id. -/
theorem createOptimisticThought_id (message tempId : String) :
    (createOptimisticThought message tempId)._id = tempId := rfl

/-- The optimistic like toggle keeps the thought's id. -/
theorem createOptimisticLikeUpdate_id (t : Thought) :
    (createOptimisticLikeUpdate t)._id = t._id := by
  unfold createOptimisticLikeUpdate
  split <;> rfl

/-- An id absent from the mapped id list makes the store-style lookup
fail. -/
theorem find?_eq_none_of_not_mem {tid : String} {l : List Thought}
    (h : tid ∉ l.map Thought._id) :
    l.find? (fun t => t._id == tid) = none := by
  apply List.find?_eq_none.mpr
  intro t ht
  simp only [beq_iff_eq]
  exact fun heq => h (List.mem_map.mpr ⟨t, ht, heq⟩)

/-- All store fields other than `thoughts` are preserved by
`updateThought`, whatever the lookup and network outcome. -/
theorem updateThought_frame (s : StoreState) (thoughtId message : String)
    (net : CrudNet) :
    (updateThought s thoughtId message net).final.loading = s.loading ∧
    (updateThought s thoughtId message net).final.error = s.error ∧
    (updateThought s thoughtId message net).final.currentPage = s.currentPage ∧
    (updateThought s thoughtId message net).final.totalPages = s.totalPages ∧
    (updateThought s thoughtId message net).final.totalThoughts = s.totalThoughts ∧
    (updateThought s thoughtId message net).final.hasMore = s.hasMore ∧
    (updateThought s thoughtId message net).final.viewMode = s.viewMode ∧
    (updateThought s thoughtId message net).final.thoughtFilter = s.thoughtFilter := by
  cases hfind : s.thoughts.find? (fun thought => thought._id == thoughtId) with
  | none => simp [updateThought, hfind]
  | some cur =>
    cases net with
    | response ok ut ep => cases ok <;> simp [updateThought, hfind]
    | throwErr a => simp [updateThought, hfind]

/-- All store fields other than `thoughts` are preserved by
`deleteThought`, whatever the lookup and network outcome. -/
theorem deleteThought_frame (s : StoreState) (thoughtId : String)
    (net : CrudNet) :
    (deleteThought s thoughtId net).final.loading = s.loading ∧
    (deleteThought s thoughtId net).final.error = s.error ∧
    (deleteThought s thoughtId net).final.currentPage = s.currentPage ∧
    (deleteThought s thoughtId net).final.totalPages = s.totalPages ∧
    (deleteThought s thoughtId net).final.totalThoughts = s.totalThoughts ∧
    (deleteThought s thoughtId net).final.hasMore = s.hasMore ∧
    (deleteThought s thoughtId net).final.viewMode = s.viewMode ∧
    (deleteThought s thoughtId net).final.thoughtFilter = s.thoughtFilter := by
  cases hfind : s.thoughts.find? (fun thought => thought._id == thoughtId) with
  | none => simp [deleteThought, hfind]
  | some cur =>
    cases net with
    | response ok ut ep => cases ok <;> simp [deleteThought, hfind]
    | throwErr a => simp [deleteThought, hfind]

/-! Claim theorems. -/

/-- Claim C1 (counterexample): calling `setThoughtFilter("mine")` does
reset the page and clear the list, but the fetch it triggers targets the
public `/thoughts` endpoint using plain `fetch`, not the owner-scoped
`/users/me/thoughts` endpoint with `authenticatedFetch`: the store tests
`thoughtFilter === 'my'`, which the value `"mine"` fails. -/
theorem C1_counterexample :
    (setThoughtFilter initialState "mine" FetchNet.netError).fetch.request.usesAuthenticatedFetch
      = false ∧
    (setThoughtFilter initialState "mine" FetchNet.netError).fetch.request.endpoint
      = API_URL ++ "/thoughts?page=1&limit=10" := by
  decide

/-- Claim C1 (amended): with the owner filter value `"my"` — the value the
code actually compares against, rather than the spec's `"mine"` —
`setThoughtFilter` resets `currentPage` to 1, clears `thoughts`, updates
`thoughtFilter`, and the fetch it triggers targets the owner-scoped
`/users/me/thoughts` endpoint through `authenticatedFetch`. -/
theorem C1_amended_thm (s : StoreState) (net : FetchNet) :
    (setThoughtFilter s "my" net).afterSet.currentPage = 1 ∧
    (setThoughtFilter s "my" net).afterSet.thoughts = [] ∧
    (setThoughtFilter s "my" net).afterSet.thoughtFilter = "my" ∧
    (setThoughtFilter s "my" net).fetch.request.endpoint =
      API_URL ++ "/users/me/thoughts?page=1&limit=10" ∧
    (setThoughtFilter s "my" net).fetch.request.usesAuthenticatedFetch = true := by
  cases net <;> exact ⟨rfl, rfl, rfl, rfl, rfl⟩

/-- Claim C2 (counterexample): the feed does not keep ids unique in every
reachable state — `fetchThoughts` in append mode concatenates the fetched
page verbatim, so a successful append whose page contains an id already
in the list puts that id in the list twice. -/
theorem C2_counterexample :
    ¬ (((fetchThoughts { initialState with thoughts := [sampleThoughtA] } 2 true
          (FetchNet.success sampleFetchDataA)).final.thoughts.map
        Thought._id).Nodup) := by
  decide

/-- Claim C2 (amended): `fetchThoughts(p, append=true)` appends the
fetched page without any deduplication; each id occurs at most once in
the resulting list provided the fetched page's ids are duplicate-free and
disjoint from the ids already present — the code itself performs no
duplicate check. -/
theorem C2_amended_thm (s : StoreState) (page : Nat) (d : FetchData)
    (h1 : (s.thoughts.map Thought._id).Nodup)
    (h2 : (d.thoughtsArray.map Thought._id).Nodup)
    (h3 : ∀ i ∈ s.thoughts.map Thought._id, i ∉ d.thoughtsArray.map Thought._id) :
    (fetchThoughts s page true (FetchNet.success d)).final.thoughts =
      s.thoughts ++ d.thoughtsArray ∧
    ((fetchThoughts s page true (FetchNet.success d)).final.thoughts.map
      Thought._id).Nodup := by
  have hthoughts : (fetchThoughts s page true (FetchNet.success d)).final.thoughts =
      s.thoughts ++ d.thoughtsArray := by
    simp [fetchThoughts, map_processThought]
  refine ⟨hthoughts, ?_⟩
  rw [hthoughts, List.map_append]
  exact List.nodup_append.mpr ⟨h1, h2, fun a ha => h3 a ha⟩

/-- Claim C2 (amended) witness: a concrete append of an id-disjoint page. -/
theorem C2_witness :
    (fetchThoughts { initialState with thoughts := [sampleThoughtA] } 2 true
        (FetchNet.success sampleFetchDataB)).final.thoughts =
      [sampleThoughtA] ++ [sampleThoughtB] ∧
    ((fetchThoughts { initialState with thoughts := [sampleThoughtA] } 2 true
        (FetchNet.success sampleFetchDataB)).final.thoughts.map
      Thought._id).Nodup :=
  C2_amended_thm { initialState with thoughts := [sampleThoughtA] } 2
    sampleFetchDataB (by decide) (by decide) (by decide)

/-- Claim C3 (counterexample): not every request-performing action sets
`loading` before suspending — `handleLike` issues its request from a
state whose `loading` flag is still `false`. -/
theorem C3_counterexample :
    ((handleLike { initialState with thoughts := [sampleThoughtA] } "a"
        (LikeNet.throwErr false)).preRequest.map StoreState.loading) = some false := by
  decide

/-- Claim C3 (amended): only `fetchThoughts` and `addThought` manage the
`loading` flag — each sets it to `true` before suspending at the request
boundary and clears it at the end — while `handleLike`, `updateThought`
and `deleteThought` never modify `loading`: at their request boundary and
after completion it still has its prior value. -/
theorem C3_amended_thm (s : StoreState) (page : Nat) (append : Bool)
    (fnet : FetchNet) (message tempId : String) (hasOnError : Bool)
    (anet : AddNet) (thoughtId : String) (lnet : LikeNet)
    (unet dnet : CrudNet) :
    ((fetchThoughts s page append fnet).preRequest.loading = true ∧
      (fetchThoughts s page append fnet).final.loading = false) ∧
    ((addThought s message tempId hasOnError anet).preRequest.loading = true ∧
      (addThought s message tempId hasOnError anet).final.loading = false) ∧
    (((handleLike s thoughtId lnet).preRequest.getD s).loading = s.loading ∧
      (handleLike s thoughtId lnet).final.loading = s.loading) ∧
    (((updateThought s thoughtId message unet).preRequest.getD s).loading = s.loading ∧
      (updateThought s thoughtId message unet).final.loading = s.loading) ∧
    (((deleteThought s thoughtId dnet).preRequest.getD s).loading = s.loading ∧
      (deleteThought s thoughtId dnet).final.loading = s.loading) := by
  refine ⟨?_, ?_, ?_, ?_, ?_⟩
  · cases fnet <;> simp [fetchThoughts]
  · cases anet with
    | response r =>
      by_cases hr : (r.ok && r.dataHasMessage && r.dataHasId) = true <;>
        simp [addThought, hr]
    | throwErr b =>
      by_cases hb : (b && hasOnError) = true <;> simp [addThought, hb]
  · cases hfind : s.thoughts.find? (fun thought => thought._id == thoughtId) with
    | none => simp [handleLike, hfind]
    | some cur =>
      cases lnet with
      | response ok ut => cases ok <;> simp [handleLike, hfind]
      | throwErr b => simp [handleLike, hfind]
  · cases hfind : s.thoughts.find? (fun thought => thought._id == thoughtId) with
    | none => simp [updateThought, hfind]
    | some cur =>
      cases unet with
      | response ok ut ep => cases ok <;> simp [updateThought, hfind]
      | throwErr b => simp [updateThought, hfind]
  · cases hfind : s.thoughts.find? (fun thought => thought._id == thoughtId) with
    | none => simp [deleteThought, hfind]
    | some cur =>
      cases dnet with
      | response ok ut ep => cases ok <;> simp [deleteThought, hfind]
      | throwErr b => simp [deleteThought, hfind]

/-- Claim C4: when the add request fails in any way — server rejection or
malformed created-record payload (`serverReject` shape of the response)
or a thrown transport error — the optimistic placeholder prepended before
the request is removed again, so the thoughts list after the call is
exactly the list before the call; the placeholder's client-generated
temporary id is assumed fresh (not among the ids already in the list). -/
theorem C4_thm (s : StoreState) (message tempId : String) (hasOnError : Bool)
    (net : AddNet) (hfresh : tempId ∉ s.thoughts.map Thought._id)
    (hfail : addRequestSucceeded net = false) :
    (addThought s message tempId hasOnError net).final.thoughts = s.thoughts := by
  have hrm : createRemoveUpdater tempId
      (createOptimisticThought message tempId :: s.thoughts) = s.thoughts := by
    rw [createRemoveUpdater_cons_self tempId _ rfl]
    exact createRemoveUpdater_of_not_mem hfresh
  cases net with
  | response r =>
    simp only [addRequestSucceeded] at hfail
    simp [addThought, hfail, createOptimisticThought_id, hrm]
  | throwErr b =>
    by_cases hb : (b && hasOnError) = true <;>
      simp [addThought, hb, createOptimisticThought_id, hrm]

/-- Claim C4 witness: a transport failure on a one-element feed leaves
the feed as it was. -/
theorem C4_witness :
    (addThought { initialState with thoughts := [sampleThoughtA] } "hi" "tmp1"
        false (AddNet.throwErr false)).final.thoughts = [sampleThoughtA] :=
  C4_thm { initialState with thoughts := [sampleThoughtA] } "hi" "tmp1" false
    (AddNet.throwErr false) (by decide) (by decide)

/-- Claim C5: when the like request fails (non-OK response or thrown
error), `handleLike` restores the thoughts list to exactly its pre-toggle
state (in particular the targeted thought keeps its prior like flag and
count), sets the shared `error` field to the classified message, and
re-raises the failure to the caller; and — unlike `handleLike` — the
other result-returning mutators `updateThought` and `deleteThought` never
touch the shared `error` field (they report only through their returned
result object, and in the embedding they return normally rather than
raising). -/
theorem C5_thm (s : StoreState) (thoughtId : String) (cur : Thought)
    (net : LikeNet)
    (hfind : s.thoughts.find? (fun thought => thought._id == thoughtId) = some cur)
    (hnodup : (s.thoughts.map Thought._id).Nodup)
    (hfail : likeRequestFailed net = true) :
    (handleLike s thoughtId net).final.thoughts = s.thoughts ∧
    (handleLike s thoughtId net).final.error =
      (if likeIsAuthError net then "Please log in to like thoughts."
       else "Could not like the thought. Please try again.") ∧
    (handleLike s thoughtId net).outcome = LikeOutcome.raised (likeIsAuthError net) ∧
    (∀ message unet, (updateThought s thoughtId message unet).final.error = s.error) ∧
    (∀ dnet, (deleteThought s thoughtId dnet).final.error = s.error) := by
  have hid : (createOptimisticLikeUpdate cur)._id = thoughtId :=
    (createOptimisticLikeUpdate_id cur).trans (find?_id_eq hfind)
  have hrestore : createOptimisticUpdater thoughtId cur
      (createOptimisticUpdater thoughtId (createOptimisticLikeUpdate cur)
        s.thoughts) = s.thoughts := by
    rw [createOptimisticUpdater_comp hid]
    exact createOptimisticUpdater_find_self hfind hnodup
  refine ⟨?_, ?_, ?_,
    fun message unet => (updateThought_frame s thoughtId message unet).2.1,
    fun dnet => (deleteThought_frame s thoughtId dnet).2.1⟩
  · cases net with
    | response ok ut =>
      cases ok
      · simp [handleLike, hfind, hrestore]
      · simp [likeRequestFailed] at hfail
    | throwErr b => simp [handleLike, hfind, hrestore]
  · cases net with
    | response ok ut =>
      cases ok
      · simp [handleLike, hfind, likeIsAuthError, handleApiError]
      · simp [likeRequestFailed] at hfail
    | throwErr b =>
      cases b <;> simp [handleLike, hfind, likeIsAuthError, handleApiError]
  · cases net with
    | response ok ut =>
      cases ok
      · simp [handleLike, hfind, likeIsAuthError]
      · simp [likeRequestFailed] at hfail
    | throwErr b => simp [handleLike, hfind, likeIsAuthError]

/-- Claim C5 witness: the spec scenario — a feed holding
`{_id:"a", liked:false, likesCount:3}` and a failing like request —
restores the entry unchanged, sets the shared error, and the call raises. -/
theorem C5_witness :
    (handleLike { initialState with thoughts := [sampleThoughtA] } "a"
        (LikeNet.response false sampleThoughtB)).final.thoughts =
      [sampleThoughtA] ∧
    (handleLike { initialState with thoughts := [sampleThoughtA] } "a"
        (LikeNet.response false sampleThoughtB)).final.error =
      "Could not like the thought. Please try again." ∧
    (handleLike { initialState with thoughts := [sampleThoughtA] } "a"
        (LikeNet.response false sampleThoughtB)).outcome =
      LikeOutcome.raised false ∧
    (∀ message unet,
      (updateThought { initialState with thoughts := [sampleThoughtA] } "a"
        message unet).final.error =
        ({ initialState with thoughts := [sampleThoughtA] } : StoreState).error) ∧
    (∀ dnet,
      (deleteThought { initialState with thoughts := [sampleThoughtA] } "a"
        dnet).final.error =
        ({ initialState with thoughts := [sampleThoughtA] } : StoreState).error) :=
  C5_thm { initialState with thoughts := [sampleThoughtA] } "a" sampleThoughtA
    (LikeNet.response false sampleThoughtB) (by decide) (by decide) (by decide)

/-- Claim C6: every failing `fetchThoughts` call — non-OK response or
transport error — sets the fixed user-facing error message and leaves the
thoughts list as it was before the call, and `loading` is `false` after
the call completes on every path, success included. -/
theorem C6_thm (s : StoreState) (page : Nat) (append : Bool) (net : FetchNet) :
    (fetchThoughts s page append net).final.loading = false ∧
    ((net = FetchNet.notOk ∨ net = FetchNet.netError) →
      (fetchThoughts s page append net).final.error =
        "Could not load happy thoughts. Please try again later." ∧
      (fetchThoughts s page append net).final.thoughts = s.thoughts) := by
  cases net <;> simp [fetchThoughts]

/-- Claim C6 witness: a non-OK response at a concrete state yields the
fixed message, an unchanged (empty) list, and a cleared loading flag. -/
theorem C6_witness :
    (fetchThoughts initialState 1 false FetchNet.notOk).final.loading = false ∧
    (fetchThoughts initialState 1 false FetchNet.notOk).final.error =
      "Could not load happy thoughts. Please try again later." ∧
    (fetchThoughts initialState 1 false FetchNet.notOk).final.thoughts = [] :=
  ⟨(C6_thm initialState 1 false FetchNet.notOk).1,
    ((C6_thm initialState 1 false FetchNet.notOk).2 (Or.inl rfl)).1,
    ((C6_thm initialState 1 false FetchNet.notOk).2 (Or.inl rfl)).2⟩

/-- Claim C7: when a successful fetch response carries no explicit
pagination metadata (`data.pagination` absent), the derived fields are
`totalPages = ceil(total / PAGE_SIZE)` — where `total` is the value the
store records in `totalThoughts` (`data.total || returnedCount`) — and
`hasMore = (returnedCount == PAGE_SIZE)`; in particular `hasMore` is
`false` whenever fewer than `PAGE_SIZE` records come back. -/
theorem C7_thm (s : StoreState) (page : Nat) (append : Bool) (d : FetchData)
    (hmeta : d.pagination = none) :
    (fetchThoughts s page append (FetchNet.success d)).final.totalPages =
      ceilDiv (fetchThoughts s page append
        (FetchNet.success d)).final.totalThoughts PAGE_SIZE ∧
    (fetchThoughts s page append (FetchNet.success d)).final.hasMore =
      (d.thoughtsArray.length == PAGE_SIZE) ∧
    (d.thoughtsArray.length < PAGE_SIZE →
      (fetchThoughts s page append (FetchNet.success d)).final.hasMore = false) := by
  refine ⟨?_, ?_, ?_⟩
  · simp [fetchThoughts, hmeta, jsOrNat]
  · simp [fetchThoughts, hmeta, map_processThought]
  · intro hlt
    simp [fetchThoughts, hmeta, map_processThought]
    omega

/-- Claim C7 witness: one record and no metadata give
`totalPages = ceil(1/10)` (as recorded from `totalThoughts = 1`) and
`hasMore = false`. -/
theorem C7_witness :
    (fetchThoughts initialState 1 false
      (FetchNet.success sampleFetchDataA)).final.totalPages =
      ceilDiv (fetchThoughts initialState 1 false
        (FetchNet.success sampleFetchDataA)).final.totalThoughts PAGE_SIZE ∧
    (fetchThoughts initialState 1 false
      (FetchNet.success sampleFetchDataA)).final.hasMore =
      (sampleFetchDataA.thoughtsArray.length == PAGE_SIZE) ∧
    (sampleFetchDataA.thoughtsArray.length < PAGE_SIZE →
      (fetchThoughts initialState 1 false
        (FetchNet.success sampleFetchDataA)).final.hasMore = false) :=
  C7_thm initialState 1 false sampleFetchDataA (by decide)

/-- Claim C8: when the target id is absent from the thoughts list, both
`updateThought` and `deleteThought` return
`{success: false, error: 'Thought not found'}` synchronously — no request
is issued — and the whole store state is left unchanged. -/
theorem C8_thm (s : StoreState) (thoughtId message : String)
    (unet dnet : CrudNet)
    (habsent : thoughtId ∉ s.thoughts.map Thought._id) :
    (updateThought s thoughtId message unet).result =
      { success := false, error := some "Thought not found", thought := none } ∧
    (updateThought s thoughtId message unet).preRequest = none ∧
    (updateThought s thoughtId message unet).final = s ∧
    (deleteThought s thoughtId dnet).result =
      { success := false, error := some "Thought not found", thought := none } ∧
    (deleteThought s thoughtId dnet).preRequest = none ∧
    (deleteThought s thoughtId dnet).final = s := by
  have hfind := find?_eq_none_of_not_mem habsent
  simp [updateThought, deleteThought, hfind]

/-- Claim C8 witness: updating or deleting the unknown id `"zzz"` on a
one-element feed is a synchronous not-found result with no state change. -/
theorem C8_witness :
    (updateThought { initialState with thoughts := [sampleThoughtA] } "zzz"
        "new text" (CrudNet.throwErr false)).result =
      { success := false, error := some "Thought not found", thought := none } ∧
    (updateThought { initialState with thoughts := [sampleThoughtA] } "zzz"
        "new text" (CrudNet.throwErr false)).preRequest = none ∧
    (updateThought { initialState with thoughts := [sampleThoughtA] } "zzz"
        "new text" (CrudNet.throwErr false)).final =
      { initialState with thoughts := [sampleThoughtA] } ∧
    (deleteThought { initialState with thoughts := [sampleThoughtA] } "zzz"
        (CrudNet.throwErr false)).result =
      { success := false, error := some "Thought not found", thought := none } ∧
    (deleteThought { initialState with thoughts := [sampleThoughtA] } "zzz"
        (CrudNet.throwErr false)).preRequest = none ∧
    (deleteThought { initialState with thoughts := [sampleThoughtA] } "zzz"
        (CrudNet.throwErr false)).final =
      { initialState with thoughts := [sampleThoughtA] } :=
  C8_thm { initialState with thoughts := [sampleThoughtA] } "zzz" "new text"
    (CrudNet.throwErr false) (CrudNet.throwErr false) (by decide)

/-- Claim C9: `updateThought` and `deleteThought` never modify the shared
`error` field, in any outcome, and leave every other state field except
`thoughts` unchanged as well — results reach the caller only through the
returned result object. -/
theorem C9_thm (s : StoreState) (thoughtId message : String)
    (unet dnet : CrudNet) :
    ((updateThought s thoughtId message unet).final.loading = s.loading ∧
      (updateThought s thoughtId message unet).final.error = s.error ∧
      (updateThought s thoughtId message unet).final.currentPage = s.currentPage ∧
      (updateThought s thoughtId message unet).final.totalPages = s.totalPages ∧
      (updateThought s thoughtId message unet).final.totalThoughts = s.totalThoughts ∧
      (updateThought s thoughtId message unet).final.hasMore = s.hasMore ∧
      (updateThought s thoughtId message unet).final.viewMode = s.viewMode ∧
      (updateThought s thoughtId message unet).final.thoughtFilter = s.thoughtFilter) ∧
    ((deleteThought s thoughtId dnet).final.loading = s.loading ∧
      (deleteThought s thoughtId dnet).final.error = s.error ∧
      (deleteThought s thoughtId dnet).final.currentPage = s.currentPage ∧
      (deleteThought s thoughtId dnet).final.totalPages = s.totalPages ∧
      (deleteThought s thoughtId dnet).final.totalThoughts = s.totalThoughts ∧
      (deleteThought s thoughtId dnet).final.hasMore = s.hasMore ∧
      (deleteThought s thoughtId dnet).final.viewMode = s.viewMode ∧
      (deleteThought s thoughtId dnet).final.thoughtFilter = s.thoughtFilter) :=
  ⟨updateThought_frame s thoughtId message unet,
    deleteThought_frame s thoughtId dnet⟩

/-- Claim C10: when the server rejects `addThought` (non-OK, or the
payload lacks `message` or `_id`) and no `onError` callback was supplied,
the extracted message goes nowhere: the shared `error` field ends the
call as the empty string it was cleared to at the start, and the callback
channel carries nothing. -/
theorem C10_thm (s : StoreState) (message tempId : String) (r : AddResponse)
    (hreject : (r.ok && r.dataHasMessage && r.dataHasId) = false) :
    (addThought s message tempId false (AddNet.response r)).final.error = "" ∧
    (addThought s message tempId false (AddNet.response r)).callback = none := by
  simp [addThought, hreject]

/-- Claim C10 witness: a concrete rejected add with no callback leaves
`error` empty and invokes no callback. -/
theorem C10_witness :
    (addThought initialState "hi" "tmp1" false
      (AddNet.response sampleRejectResponse)).final.error = "" ∧
    (addThought initialState "hi" "tmp1" false
      (AddNet.response sampleRejectResponse)).callback = none :=
  C10_thm initialState "hi" "tmp1" sampleRejectResponse (by decide)

end ThoughtsStore
